import Mathlib

/-!
Verification development for the Tiles-r-us showroom application.

The definitions below are a shallow embedding of the pricing calculator,
delivery-cost helper, parish matcher, auto-distance UI update, ticket
generator and order-placement handler found in `src/public/service-worker.js`.
JavaScript numbers are modelled as exact rationals (`ℚ`); a raw numeric text
field is modelled as `Option ℚ`, where `none` stands for a missing or
non-numeric entry (`parseFloat` returning `NaN`).
-/

namespace TilesRUs

/-- ASCII lower-casing of a single character, the fragment of JavaScript
`toLowerCase` exercised by the parish names. -/
def asciiLower (c : Char) : Char :=
  if 'A' ≤ c ∧ c ≤ 'Z' then Char.ofNat (c.toNat + 32) else c

/-- Structural-recursion worker for `removeParish`; the fuel argument starts at
the list length and dominates the number of steps, so the fuel-exhausted branch
is unreachable. -/
def removeParishFuel : Nat → List Char → List Char
  | 0, l => l
  | _ + 1, [] => []
  | fuel + 1, c :: rest =>
    if (List.take 6 (c :: rest)).map asciiLower = ['p', 'a', 'r', 'i', 's', 'h'] then
      removeParishFuel fuel (List.drop 5 rest)
    else
      c :: removeParishFuel fuel rest

/-- Embeds `String.prototype.replace(/parish/gi, "")`: removes every
(case-insensitive, non-overlapping, left-to-right) occurrence of `parish`. -/
def removeParish (l : List Char) : List Char :=
  removeParishFuel l.length l

/-- Embeds `String.prototype.replace(/^st[.\s]/i, "Saint ")`: when the string
starts with `s`/`S`, `t`/`T` and then a dot or whitespace character, those
three characters are replaced by the six characters `Saint `. -/
def expandStSaint (l : List Char) : List Char :=
  match l with
  | a :: b :: c :: rest =>
    if asciiLower a = 's' ∧ asciiLower b = 't' ∧ (c = '.' ∨ c.isWhitespace) then
      'S' :: 'a' :: 'i' :: 'n' :: 't' :: ' ' :: rest
    else
      a :: b :: c :: rest
  | other => other

/-- JavaScript `String.prototype.trim` on a character list. -/
def trimChars (l : List Char) : List Char :=
  ((l.dropWhile Char.isWhitespace).reverse.dropWhile Char.isWhitespace).reverse

/-- Whether `needle` occurs as a contiguous run at the start of `haystack`. -/
def startsWithChars : List Char → List Char → Bool
  | _, [] => true
  | [], _ :: _ => false
  | a :: s, b :: t => a = b && startsWithChars s t

/-- JavaScript `haystack.includes(needle)` on character lists. -/
def hasSub (haystack needle : List Char) : Bool :=
  match haystack with
  | [] => startsWithChars [] needle
  | c :: rest => startsWithChars (c :: rest) needle || hasSub rest needle

/-- `normalizeParish` from the source: strip `parish` occurrences, expand a
leading `st.`/`st ` to `Saint `, trim, lower-case.  An empty (falsy) input
returns the empty string. -/
def normalizeParish (name : String) : String :=
  if name = "" then ""
  else
    String.mk (((trimChars (expandStSaint (removeParish name.toList))).map asciiLower))

/-- `JAMAICA_PARISHES` from the source, in source order. -/
def JAMAICA_PARISHES : List String :=
  ["Kingston", "Saint Andrew", "Saint Thomas", "Portland", "Saint Mary",
   "Saint Ann", "Trelawny", "Saint James", "Hanover", "Westmoreland",
   "Saint Elizabeth", "Manchester", "Clarendon", "Saint Catherine"]

/-- `matchParishName` from the source: the first parish whose normalized form
equals, or is contained in, the normalized input; `none` when no parish
matches or the input is empty (falsy). -/
def matchParishName (anyString : String) : Option String :=
  if anyString = "" then none
  else
    let s := normalizeParish anyString
    JAMAICA_PARISHES.find? fun p =>
      normalizeParish p == s || hasSub s.toList (normalizeParish p).toList

/-- `convertToMeters` from the source: parse the field (`none` = `NaN`),
return 0 for a missing, non-numeric or non-positive value, otherwise convert
feet (× 0.3048) or inches (× 0.0254) to meters; any other unit string is
taken as meters. -/
def convertToMeters (value : Option ℚ) (unit : String) : ℚ :=
  match value with
  | none => 0
  | some v =>
    if v ≤ 0 then 0
    else if unit = "ft" then v * (3048 / 10000)
    else if unit = "in" then v * (254 / 10000)
    else v

/-- `computeDeliveryCost` from the source.  `milesInput` is the raw miles
field (`none` = non-numeric). -/
def computeDeliveryCost (method : String) (milesInput : Option ℚ) (newParish : Bool) : ℚ :=
  if method ≠ "delivery" then 0
  else if newParish then
    let insideMiles : ℚ :=
      match milesInput with
      | none => 0
      | some m => if m < 0 then 0 else m
    3500 + insideMiles * 450
  else
    match milesInput with
    | none => 0
    | some m =>
      if m ≤ 0 then 0
      else if m ≤ 5 then 1500 else 1500 + (m - 5) * 250

/-- One entry of the `STORES` array. -/
structure StoreInfo where
  id : String
  name : String
  lat : ℚ
  lon : ℚ
  parish : String
deriving DecidableEq

/-- The `STORES` array from the source. -/
def STORES : List StoreInfo :=
  [⟨"KNG", "Kingston (HWT)", 180179 / 10000, -767936 / 10000, "Saint Andrew"⟩,
   ⟨"MBJ", "Montego Bay", 184667 / 10000, -779167 / 10000, "Saint James"⟩,
   ⟨"MAN", "Mandeville", 180425 / 10000, -775075 / 10000, "Manchester"⟩,
   ⟨"OCH", "Ocho Rios", 184075 / 10000, -771031 / 10000, "Saint Ann"⟩,
   ⟨"SPN", "Spanish Town", 179970 / 10000, -769570 / 10000, "Saint Catherine"⟩]

/-- The `auto` sub-record stored inside a result's delivery record. -/
structure AutoInfo where
  totalMilesEstimate : ℚ
  detectedParish : String
  roadFactor : ℚ
deriving DecidableEq

/-- The `delivery` sub-record of a calculator result. -/
structure DeliveryInfo where
  method : String
  isNewParish : Bool
  miles : ℚ
  cost : ℚ
  store : StoreInfo
  auto : AutoInfo
deriving DecidableEq

/-- The object passed to `setResult` by `handleCalculate`. -/
structure CalcResult where
  tilesNeeded : ℤ
  totalCost : ℚ
  roomAreaM2 : ℚ
  roomAreaSqFt : ℚ
  thinsetBags : ℤ
  thinsetBagCoverageSqFt : ℚ
  thinsetBagPrice : ℚ
  thinsetCost : ℚ
  delivery : DeliveryInfo
  grandTotal : ℚ
deriving DecidableEq

/-- The UI state read by `handleCalculate`: the raw text fields (numeric ones
as `Option ℚ`, `none` = non-numeric/missing), the unit selectors, the delivery
fields, and the auto-distance state. -/
structure CalcInput where
  tileLength : Option ℚ
  tileWidth : Option ℚ
  tileUnit : String
  tilePrice : Option ℚ
  roomLength : Option ℚ
  roomWidth : Option ℚ
  roomUnit : String
  deliveryMethod : String
  deliveryMiles : Option ℚ
  isNewParish : Bool
  selectedStore : StoreInfo
  autoTotalMiles : ℚ
  detectedParish : String
  roadFactor : ℚ
deriving DecidableEq

/-- `handleCalculate` from the source.  Returns the new value of the stored
`result` state: on validation failure (the alert path) the previous value
`oldResult` is kept, otherwise the freshly computed result.  The guard
`!tLength || !tWidth || !rLength || !rWidth || !price` is falsy exactly on a
converted length of 0 or a `NaN`/0 price. -/
def handleCalculate (inp : CalcInput) (oldResult : Option CalcResult) : Option CalcResult :=
  let tLength := convertToMeters inp.tileLength inp.tileUnit
  let tWidth := convertToMeters inp.tileWidth inp.tileUnit
  let rLength := convertToMeters inp.roomLength inp.roomUnit
  let rWidth := convertToMeters inp.roomWidth inp.roomUnit
  match inp.tilePrice with
  | none => oldResult
  | some price =>
    if tLength = 0 ∨ tWidth = 0 ∨ rLength = 0 ∨ rWidth = 0 ∨ price = 0 then
      oldResult
    else
      let tileArea := tLength * tWidth
      let roomArea := rLength * rWidth
      let tilesNeeded : ℤ := ⌈roomArea / tileArea⌉
      let tileTotalCost : ℚ := (tilesNeeded : ℚ) * price
      let roomAreaSqFt : ℚ := roomArea * (107639 / 10000)
      let thinsetBags : ℤ := max 0 ⌈roomAreaSqFt / 50⌉
      let thinsetCost : ℚ := (thinsetBags : ℚ) * 1500
      let deliveryCostNow := computeDeliveryCost inp.deliveryMethod inp.deliveryMiles inp.isNewParish
      let grandTotal := tileTotalCost + thinsetCost + deliveryCostNow
      some
        { tilesNeeded := tilesNeeded
          totalCost := tileTotalCost
          roomAreaM2 := roomArea
          roomAreaSqFt := roomAreaSqFt
          thinsetBags := thinsetBags
          thinsetBagCoverageSqFt := 50
          thinsetBagPrice := 1500
          thinsetCost := thinsetCost
          delivery :=
            { method := inp.deliveryMethod
              isNewParish := inp.isNewParish
              miles := match inp.deliveryMiles with | none => 0 | some m => m
              cost := deliveryCostNow
              store := inp.selectedStore
              auto :=
                { totalMilesEstimate := inp.autoTotalMiles
                  detectedParish := inp.detectedParish
                  roadFactor := inp.roadFactor } }
          grandTotal := grandTotal }

/-- JavaScript `(x).toFixed(1)` read back as a number (`+(x).toFixed(1)`):
round to one decimal place, ties away from zero toward the larger value. -/
def toFixed1 (q : ℚ) : ℚ :=
  (⌊q * 10 + 1 / 2⌋ : ℚ) / 10

/-- The four pieces of UI state written by `applyAutoDistanceToUI`. -/
structure AutoUIState where
  autoTotalMiles : ℚ
  detectedParish : String
  isNewParish : Bool
  deliveryMiles : ℚ
deriving DecidableEq

/-- `applyAutoDistanceToUI` from the source.  `prevIsNewParish` is the value of
the `isNewParish` state before the call, which is left untouched when no parish
was detected.  The delivery-miles text field is modelled by its numeric
value. -/
def applyAutoDistanceToUI (selectedStore : StoreInfo) (prevIsNewParish : Bool)
    (totalMiles : ℚ) (destParishGuess : String) : AutoUIState :=
  if destParishGuess ≠ "" then
    if normalizeParish destParishGuess ≠ normalizeParish selectedStore.parish then
      { autoTotalMiles := totalMiles
        detectedParish := destParishGuess
        isNewParish := true
        deliveryMiles := max 1 (toFixed1 (totalMiles * (3 / 10))) }
    else
      { autoTotalMiles := totalMiles
        detectedParish := destParishGuess
        isNewParish := false
        deliveryMiles := toFixed1 totalMiles }
  else
    { autoTotalMiles := totalMiles
      detectedParish := destParishGuess
      isNewParish := prevIsNewParish
      deliveryMiles := toFixed1 totalMiles }

/-- JavaScript `String.prototype.trim`. -/
def jsTrim (s : String) : String :=
  String.mk (trimChars s.toList)

/-- A registered sales rep (`salesReps` entry). -/
structure SalesRep where
  name : String
  username : String
  password : String
  employeeId : String
deriving DecidableEq

/-- The `customer` sub-record of an order. -/
structure Customer where
  name : String
  phone : String
  email : String
  address : String
  notes : String
deriving DecidableEq

/-- `tileDimensions` / `roomDimensions` sub-record: the raw field values. -/
structure DimInfo where
  length : Option ℚ
  width : Option ℚ
  unit : String
deriving DecidableEq

/-- The `thinset` sub-record of an order. -/
structure ThinsetInfo where
  bags : ℤ
  bagPrice : ℚ
  cost : ℚ
deriving DecidableEq

/-- An entry of the persisted order ledger, as built by `handlePlaceOrder`. -/
structure Order where
  orderId : String
  ticketNumber : String
  salesRep : String
  employeeId : String
  customer : Customer
  tile : String
  wallTile : String
  tileDimensions : DimInfo
  tilePrice : Option ℚ
  roomDimensions : DimInfo
  tilesNeeded : ℤ
  totalCost : ℚ
  thinset : ThinsetInfo
  delivery : DeliveryInfo
  grandTotal : ℚ
  createdAt : String
deriving DecidableEq

/-- The ticket literal `` `TRU-${chunk1}-${chunk2}` ``. -/
def ticketString (chunk1 chunk2 : String) : String :=
  "TRU-" ++ chunk1 ++ "-" ++ chunk2

/-- `generateTicketNumber` from the source.  The stream of `Math.random`
chunk pairs drawn by successive iterations of the `do`/`while` loop is
modelled by `draws`; the loop keeps drawing until the ticket avoids every
ticket number already present in the stored order list, so it terminates
exactly when some draw is fresh, which is the hypothesis `h`. -/
def generateTicketNumber (orders : List Order) (draws : ℕ → String × String)
    (h : ∃ n, ticketString (draws n).1 (draws n).2 ∉ orders.map Order.ticketNumber) : String :=
  ticketString (draws (Nat.find h)).1 (draws (Nat.find h)).2

/-- The mileage test of `handlePlaceOrder`'s within-parish guard:
`isNaN(miles) || miles <= 0`. -/
def milesInvalid (mi : Option ℚ) : Bool :=
  match mi with
  | none => true
  | some m => decide (m ≤ 0)

/-- The UI state read and written by `handlePlaceOrder`.
`localStorageOrders` is the content of the `orders` blob in localStorage. -/
structure PlaceOrderState where
  result : Option CalcResult
  loggedInUser : Option SalesRep
  customerName : String
  customerPhone : String
  customerEmail : String
  customerAddress : String
  customerNotes : String
  tile : String
  wallTile : String
  tileLength : Option ℚ
  tileWidth : Option ℚ
  tileUnit : String
  tilePrice : Option ℚ
  roomLength : Option ℚ
  roomWidth : Option ℚ
  roomUnit : String
  deliveryMethod : String
  deliveryMiles : Option ℚ
  isNewParish : Bool
  orders : List Order
  localStorageOrders : List Order
deriving DecidableEq

/-- `handlePlaceOrder` from the source.  The generated order id, generated
ticket number and `new Date().toISOString()` are passed in as `orderId`,
`ticketNumber` and `now`.  Each alert path returns the state unchanged;
otherwise the new order is appended and the whole updated list is both stored
in the state and written to localStorage as one blob. -/
def handlePlaceOrder (st : PlaceOrderState) (orderId ticketNumber now : String) :
    PlaceOrderState :=
  match st.result with
  | none => st
  | some r =>
    match st.loggedInUser with
    | none => st
    | some u =>
      if jsTrim st.customerName = "" ∨ jsTrim st.customerPhone = "" then st
      else if st.deliveryMethod = "delivery" ∧ st.isNewParish = false ∧
          milesInvalid st.deliveryMiles = true then st
      else
        let order : Order :=
          { orderId := orderId
            ticketNumber := ticketNumber
            salesRep := u.name
            employeeId := u.employeeId
            customer :=
              { name := jsTrim st.customerName
                phone := jsTrim st.customerPhone
                email := jsTrim st.customerEmail
                address := jsTrim st.customerAddress
                notes := jsTrim st.customerNotes }
            tile := st.tile
            wallTile := st.wallTile
            tileDimensions := { length := st.tileLength, width := st.tileWidth, unit := st.tileUnit }
            tilePrice := st.tilePrice
            roomDimensions := { length := st.roomLength, width := st.roomWidth, unit := st.roomUnit }
            tilesNeeded := r.tilesNeeded
            totalCost := r.totalCost
            thinset := { bags := r.thinsetBags, bagPrice := r.thinsetBagPrice, cost := r.thinsetCost }
            delivery := r.delivery
            grandTotal := r.grandTotal
            createdAt := now }
        let updatedOrders := st.orders ++ [order]
        { st with orders := updatedOrders, localStorageOrders := updatedOrders }

/-! Concrete exemplar data used to instantiate the theorems below. -/

/-- The first store of `STORES` (the default selection). -/
def exStore : StoreInfo :=
  ⟨"KNG", "Kingston (HWT)", 180179 / 10000, -767936 / 10000, "Saint Andrew"⟩

/-- A valid calculator input: 0.3 m × 0.3 m tiles at 100 per tile,
4 m × 5 m room, pickup. -/
def exCalcInput : CalcInput :=
  { tileLength := some (3 / 10), tileWidth := some (3 / 10), tileUnit := "m"
    tilePrice := some 100
    roomLength := some 4, roomWidth := some 5, roomUnit := "m"
    deliveryMethod := "pickup", deliveryMiles := none, isNewParish := false
    selectedStore := exStore
    autoTotalMiles := 0, detectedParish := "", roadFactor := 5 / 4 }

/-- The same input with a negative tile price. -/
def exNegPriceInput : CalcInput :=
  { exCalcInput with tilePrice := some (-5) }

/-- The same input with the room length missing. -/
def exMissingRoomInput : CalcInput :=
  { exCalcInput with roomLength := none }

/-- A concrete stored calculator result. -/
def exResult : CalcResult :=
  { tilesNeeded := 223, totalCost := 22300
    roomAreaM2 := 20, roomAreaSqFt := 107639 / 500
    thinsetBags := 5, thinsetBagCoverageSqFt := 50
    thinsetBagPrice := 1500, thinsetCost := 7500
    delivery :=
      { method := "pickup", isNewParish := false, miles := 0, cost := 0
        store := exStore
        auto := { totalMilesEstimate := 0, detectedParish := "", roadFactor := 5 / 4 } }
    grandTotal := 29800 }

/-- The default sales rep seeded by the app. -/
def exRep : SalesRep :=
  ⟨"Default Rep", "rep1", "1234", "EMP001"⟩

/-- A concrete ledger entry. -/
def exOrder : Order :=
  { orderId := "ORD-1", ticketNumber := "TRU-AAAA-1111"
    salesRep := "Default Rep", employeeId := "EMP001"
    customer := ⟨"Jane Doe", "876-000-0000", "", "", ""⟩
    tile := "Marble", wallTile := "Marble"
    tileDimensions := ⟨some (3 / 10), some (3 / 10), "m"⟩
    tilePrice := some 100
    roomDimensions := ⟨some 4, some 5, "m"⟩
    tilesNeeded := 223, totalCost := 22300
    thinset := ⟨5, 1500, 7500⟩
    delivery :=
      { method := "pickup", isNewParish := false, miles := 0, cost := 0
        store := exStore
        auto := { totalMilesEstimate := 0, detectedParish := "", roadFactor := 5 / 4 } }
    grandTotal := 29800
    createdAt := "2026-01-01T00:00:00.000Z" }

/-- A constant stream of random chunk pairs for the ticket generator. -/
def exDraws : ℕ → String × String := fun _ => ("BBBB", "2222")

/-- Some draw of `exDraws` avoids the ticket numbers of `[exOrder]`. -/
def exFresh : ∃ n, ticketString (exDraws n).1 (exDraws n).2 ∉ [exOrder].map Order.ticketNumber :=
  ⟨0, by decide⟩

/-- A state ready for order placement. -/
def exPlaceState : PlaceOrderState :=
  { result := some exResult, loggedInUser := some exRep
    customerName := "Jane Doe", customerPhone := "876-000-0000"
    customerEmail := "", customerAddress := "", customerNotes := ""
    tile := "Marble", wallTile := "Marble"
    tileLength := some (3 / 10), tileWidth := some (3 / 10), tileUnit := "m"
    tilePrice := some 100
    roomLength := some 4, roomWidth := some 5, roomUnit := "m"
    deliveryMethod := "pickup", deliveryMiles := none, isNewParish := false
    orders := [exOrder], localStorageOrders := [exOrder] }

/-! Theorems. -/

/-- Shape of the result produced by `handleCalculate` on any input passing the
validation guard: each stored field equals the corresponding source formula. -/
theorem handleCalculate_spec (inp : CalcInput) (oldResult : Option CalcResult) (p : ℚ)
    (hp : inp.tilePrice = some p)
    (h1 : convertToMeters inp.tileLength inp.tileUnit ≠ 0)
    (h2 : convertToMeters inp.tileWidth inp.tileUnit ≠ 0)
    (h3 : convertToMeters inp.roomLength inp.roomUnit ≠ 0)
    (h4 : convertToMeters inp.roomWidth inp.roomUnit ≠ 0)
    (hp0 : p ≠ 0) :
    ∃ r : CalcResult, handleCalculate inp oldResult = some r ∧
      r.tilesNeeded = ⌈convertToMeters inp.roomLength inp.roomUnit *
          convertToMeters inp.roomWidth inp.roomUnit /
          (convertToMeters inp.tileLength inp.tileUnit *
           convertToMeters inp.tileWidth inp.tileUnit)⌉ ∧
      r.totalCost = (r.tilesNeeded : ℚ) * p ∧
      r.roomAreaM2 = convertToMeters inp.roomLength inp.roomUnit *
          convertToMeters inp.roomWidth inp.roomUnit ∧
      r.roomAreaSqFt = r.roomAreaM2 * (107639 / 10000) ∧
      r.thinsetBags = max 0 ⌈r.roomAreaSqFt / 50⌉ ∧
      r.thinsetBagPrice = 1500 ∧
      r.thinsetCost = (r.thinsetBags : ℚ) * 1500 ∧
      r.delivery.cost = computeDeliveryCost inp.deliveryMethod inp.deliveryMiles inp.isNewParish ∧
      r.grandTotal = r.totalCost + r.thinsetCost + r.delivery.cost := by
  simp only [handleCalculate, hp]
  rw [if_neg (by push_neg; exact ⟨h1, h2, h3, h4, hp0⟩)]
  exact ⟨_, rfl, rfl, rfl, rfl, rfl, rfl, rfl, rfl, rfl, rfl⟩

/-- C1: for every valid calculator input — tile and room dimensions positive
after conversion to meters (1 ft = 0.3048 m, 1 in = 0.0254 m) and a valid tile
price — `handleCalculate` stores a result whose tile count is the ceiling of
room area over tile area. -/
theorem C1_tilesNeeded_ceiling (inp : CalcInput) (oldResult : Option CalcResult) (p : ℚ)
    (hp : inp.tilePrice = some p) (hp0 : p ≠ 0)
    (h1 : 0 < convertToMeters inp.tileLength inp.tileUnit)
    (h2 : 0 < convertToMeters inp.tileWidth inp.tileUnit)
    (h3 : 0 < convertToMeters inp.roomLength inp.roomUnit)
    (h4 : 0 < convertToMeters inp.roomWidth inp.roomUnit) :
    (convertToMeters (some 1) "ft" = 3048 / 10000 ∧
     convertToMeters (some 1) "in" = 254 / 10000) ∧
    ∃ r : CalcResult, handleCalculate inp oldResult = some r ∧
      r.tilesNeeded = ⌈convertToMeters inp.roomLength inp.roomUnit *
          convertToMeters inp.roomWidth inp.roomUnit /
          (convertToMeters inp.tileLength inp.tileUnit *
           convertToMeters inp.tileWidth inp.tileUnit)⌉ := by
  refine ⟨⟨by simp [convertToMeters], by simp [convertToMeters]⟩, ?_⟩
  obtain ⟨r, hr, ht, -⟩ :=
    handleCalculate_spec inp oldResult p hp h1.ne' h2.ne' h3.ne' h4.ne' hp0
  exact ⟨r, hr, ht⟩

/-- C1 witness: the 4 m × 5 m room with 0.3 m × 0.3 m tiles yields 223 tiles. -/
theorem C1_tilesNeeded_ceiling_witness :
    ∃ r : CalcResult, handleCalculate exCalcInput none = some r ∧ r.tilesNeeded = 223 := by
  obtain ⟨-, r, hr, ht⟩ :=
    C1_tilesNeeded_ceiling exCalcInput none 100 rfl (by norm_num)
      (by simp [convertToMeters, exCalcInput]; norm_num)
      (by simp [convertToMeters, exCalcInput]; norm_num)
      (by simp [convertToMeters, exCalcInput]; norm_num)
      (by simp [convertToMeters, exCalcInput]; norm_num)
  refine ⟨r, hr, ?_⟩
  rw [ht]
  simp only [exCalcInput]
  simp [convertToMeters]
  norm_num [Int.ceil_eq_iff]

/-- C4: for every valid calculator input the stored result prices thinset as
ceiling(room area in ft² / 50) bags at the fixed constant 1500 per bag, and the
grand total is tile cost + thinset cost + delivery cost. -/
theorem C4_thinset_grandTotal (inp : CalcInput) (oldResult : Option CalcResult) (p : ℚ)
    (hp : inp.tilePrice = some p) (hp0 : p ≠ 0)
    (h1 : 0 < convertToMeters inp.tileLength inp.tileUnit)
    (h2 : 0 < convertToMeters inp.tileWidth inp.tileUnit)
    (h3 : 0 < convertToMeters inp.roomLength inp.roomUnit)
    (h4 : 0 < convertToMeters inp.roomWidth inp.roomUnit) :
    ∃ r : CalcResult, handleCalculate inp oldResult = some r ∧
      r.roomAreaSqFt = convertToMeters inp.roomLength inp.roomUnit *
          convertToMeters inp.roomWidth inp.roomUnit * (107639 / 10000) ∧
      r.thinsetBags = ⌈r.roomAreaSqFt / 50⌉ ∧
      r.thinsetBagPrice = 1500 ∧
      r.thinsetCost = (r.thinsetBags : ℚ) * 1500 ∧
      r.delivery.cost = computeDeliveryCost inp.deliveryMethod inp.deliveryMiles inp.isNewParish ∧
      r.grandTotal = r.totalCost + r.thinsetCost + r.delivery.cost := by
  obtain ⟨r, hr, -, -, hm2, hsq, hbags, hbp, hcost, hdc, hgt⟩ :=
    handleCalculate_spec inp oldResult p hp h1.ne' h2.ne' h3.ne' h4.ne' hp0
  have harea : 0 < r.roomAreaSqFt := by
    rw [hsq, hm2]
    have := mul_pos h3 h4
    positivity
  refine ⟨r, hr, by rw [hsq, hm2], ?_, hbp, hcost, hdc, hgt⟩
  rw [hbags, max_eq_right]
  exact Int.ceil_nonneg (by positivity)

/-- C4 witness: the 20 m² room (4 m × 5 m) yields 5 thinset bags at 1500
each, and the grand total is the sum of the three cost components. -/
theorem C4_thinset_grandTotal_witness :
    ∃ r : CalcResult, handleCalculate exCalcInput none = some r ∧
      r.thinsetBags = 5 ∧ r.thinsetBagPrice = 1500 ∧
      r.grandTotal = r.totalCost + r.thinsetCost + r.delivery.cost := by
  obtain ⟨r, hr, hsq, hbags, hbp, -, -, hgt⟩ :=
    C4_thinset_grandTotal exCalcInput none 100 rfl (by norm_num)
      (by simp [convertToMeters, exCalcInput]; norm_num)
      (by simp [convertToMeters, exCalcInput]; norm_num)
      (by simp [convertToMeters, exCalcInput]; norm_num)
      (by simp [convertToMeters, exCalcInput]; norm_num)
  refine ⟨r, hr, ?_, hbp, hgt⟩
  rw [hbags, hsq]
  simp only [exCalcInput]
  simp [convertToMeters]
  norm_num [Int.ceil_eq_iff]

/-- C5 counterexample: the tile price −5 is non-positive, yet
`handleCalculate` accepts it and overwrites the stored result (the action is
not blocked). -/
theorem C5_counterexample :
    ((-5 : ℚ) ≤ 0) ∧ handleCalculate exNegPriceInput none ≠ none := by
  refine ⟨by norm_num, ?_⟩
  obtain ⟨r, hr, -⟩ :=
    handleCalculate_spec exNegPriceInput none (-5) rfl
      (by simp [convertToMeters, exNegPriceInput, exCalcInput])
      (by simp [convertToMeters, exNegPriceInput, exCalcInput])
      (by simp [convertToMeters, exNegPriceInput, exCalcInput])
      (by simp [convertToMeters, exNegPriceInput, exCalcInput])
      (by norm_num)
  simp [hr]

/-- C5 (amended): `handleCalculate` rejects, leaving the stored result
unchanged, exactly when a dimension is missing, non-numeric or non-positive
(its conversion is 0) or the tile price is missing, non-numeric or zero; a
negative tile price is not rejected. -/
theorem C5_rejects_leaves_result (inp : CalcInput) (oldResult : Option CalcResult)
    (h : convertToMeters inp.tileLength inp.tileUnit = 0 ∨
         convertToMeters inp.tileWidth inp.tileUnit = 0 ∨
         convertToMeters inp.roomLength inp.roomUnit = 0 ∨
         convertToMeters inp.roomWidth inp.roomUnit = 0 ∨
         inp.tilePrice = none ∨ inp.tilePrice = some 0) :
    handleCalculate inp oldResult = oldResult := by
  cases hP : inp.tilePrice with
  | none => simp [handleCalculate, hP]
  | some p =>
    have hcond : convertToMeters inp.tileLength inp.tileUnit = 0 ∨
        convertToMeters inp.tileWidth inp.tileUnit = 0 ∨
        convertToMeters inp.roomLength inp.roomUnit = 0 ∨
        convertToMeters inp.roomWidth inp.roomUnit = 0 ∨ p = 0 := by
      rcases h with h | h | h | h | h | h
      · exact Or.inl h
      · exact Or.inr (Or.inl h)
      · exact Or.inr (Or.inr (Or.inl h))
      · exact Or.inr (Or.inr (Or.inr (Or.inl h)))
      · rw [hP] at h; exact absurd h (by simp)
      · rw [hP] at h
        exact Or.inr (Or.inr (Or.inr (Or.inr (by injection h))))
    simp only [handleCalculate, hP]
    rw [if_pos hcond]

/-- C5 witness: a missing room length leaves the stored result untouched. -/
theorem C5_rejects_leaves_result_witness :
    handleCalculate exMissingRoomInput (some exResult) = some exResult :=
  C5_rejects_leaves_result exMissingRoomInput (some exResult)
    (Or.inr (Or.inr (Or.inl rfl)))

/-- C2 counterexample: an in-parish delivery of 0 miles has miles ≤ 5 yet costs
0, not the flat fee 1500. -/
theorem C2_counterexample :
    ((0 : ℚ) ≤ 5) ∧ computeDeliveryCost "delivery" (some 0) false ≠ 1500 := by
  constructor
  · norm_num
  · simp [computeDeliveryCost]

/-- C2 (amended): for every in-parish delivery with positive miles, the cost is
the flat fee 1500 up to 5 miles and 1500 + (miles − 5) × 250 beyond. -/
theorem C2_inParish_cost (m : ℚ) (h : 0 < m) :
    computeDeliveryCost "delivery" (some m) false =
      if m ≤ 5 then 1500 else 1500 + (m - 5) * 250 := by
  simp only [computeDeliveryCost]
  rw [if_neg (by simp), if_neg (by simp)]
  rw [if_neg (not_le.mpr h)]

/-- C2 witness: 8 in-parish miles cost 2250 and 3 in-parish miles cost 1500. -/
theorem C2_inParish_cost_witness :
    computeDeliveryCost "delivery" (some 8) false = 2250 ∧
    computeDeliveryCost "delivery" (some 3) false = 1500 := by
  constructor
  · rw [C2_inParish_cost 8 (by norm_num)]
    norm_num
  · rw [C2_inParish_cost 3 (by norm_num)]
    norm_num

/-- C3: for every cross-parish delivery with a non-negative number of miles
inside the new parish, the cost is 3500 + miles × 450, and any pickup costs
0. -/
theorem C3_newParish_cost (m : ℚ) (hm : 0 ≤ m) (mi : Option ℚ) (np : Bool) :
    computeDeliveryCost "delivery" (some m) true = 3500 + m * 450 ∧
    computeDeliveryCost "pickup" mi np = 0 := by
  constructor
  · simp only [computeDeliveryCost]
    rw [if_neg (by simp), if_pos (by simp)]
    rw [if_neg (not_lt.mpr hm)]
  · simp [computeDeliveryCost]

/-- C3 witness: 2 miles inside the new parish cost 4400, and pickup costs 0. -/
theorem C3_newParish_cost_witness :
    computeDeliveryCost "delivery" (some 2) true = 4400 ∧
    computeDeliveryCost "pickup" (some 2) true = 0 := by
  obtain ⟨h1, h2⟩ := C3_newParish_cost 2 (by norm_num) (some 2) true
  refine ⟨?_, h2⟩
  rw [h1]
  norm_num

/-- C10: a cross-parish delivery whose miles field is missing, non-numeric or
negative costs exactly the base fee 3500 (the invalid mileage is treated as 0
inside-parish miles); `computeDeliveryCost` is total, so no error is
signalled. -/
theorem C10_invalid_miles_base_fee (mi : Option ℚ)
    (h : mi = none ∨ ∃ m, mi = some m ∧ m < 0) :
    computeDeliveryCost "delivery" mi true = 3500 := by
  rcases h with h | ⟨m, hm, hneg⟩
  · subst h
    simp [computeDeliveryCost]
  · subst hm
    simp only [computeDeliveryCost]
    rw [if_neg (by simp), if_pos (by simp), if_pos hneg]
    norm_num

/-- C10 witness: both a non-numeric and a negative miles value cost 3500. -/
theorem C10_invalid_miles_base_fee_witness :
    computeDeliveryCost "delivery" none true = 3500 ∧
    computeDeliveryCost "delivery" (some (-3)) true = 3500 :=
  ⟨C10_invalid_miles_base_fee none (Or.inl rfl),
   C10_invalid_miles_base_fee (some (-3)) (Or.inr ⟨-3, rfl, by norm_num⟩)⟩

/-- C6: whenever the retry loop of `generateTicketNumber` terminates (some
draw is fresh), the returned ticket is absent from the ticket numbers of all
orders already in the ledger. -/
theorem C6_ticket_fresh (orders : List Order) (draws : ℕ → String × String)
    (h : ∃ n, ticketString (draws n).1 (draws n).2 ∉ orders.map Order.ticketNumber) :
    generateTicketNumber orders draws h ∉ orders.map Order.ticketNumber :=
  Nat.find_spec h

/-- C6 witness: with one existing order and a fresh draw, the generated ticket
is not among the existing ticket numbers. -/
theorem C6_ticket_fresh_witness :
    generateTicketNumber [exOrder] exDraws exFresh ∉ [exOrder].map Order.ticketNumber :=
  C6_ticket_fresh [exOrder] exDraws exFresh

/-- C7 counterexample: destination parish Portland differs from the store's
Saint Andrew, so the claim asserts delivery mileage 30% of the 1-mile total
(0.3), but the code floors the estimate at 1 mile. -/
theorem C7_counterexample :
    normalizeParish "Portland" ≠ normalizeParish exStore.parish ∧
    (applyAutoDistanceToUI exStore false 1 "Portland").isNewParish = true ∧
    (applyAutoDistanceToUI exStore false 1 "Portland").deliveryMiles ≠ 1 * (3 / 10) := by
  refine ⟨by decide, ?_, ?_⟩
  · simp only [applyAutoDistanceToUI]
    rw [if_pos (by decide), if_pos (by decide)]
  · simp only [applyAutoDistanceToUI]
    rw [if_pos (by decide), if_pos (by decide)]
    have hfx : toFixed1 (1 * (3 / 10)) = 3 / 10 := by
      rw [toFixed1]
      norm_num [Int.floor_eq_iff]
    simp only [hfx]
    rw [max_eq_left (by norm_num)]
    norm_num

/-- C7 (amended): when a destination parish is detected, a parish differing
from the store's sets the new-parish flag and sets the delivery mileage to 30%
of the estimated total distance rounded to one decimal and floored at 1 mile;
a matching parish clears the flag and uses the full distance rounded to one
decimal. -/
theorem C7_auto_distance (store : StoreInfo) (prevNP : Bool) (totalMiles : ℚ)
    (dest : String) (hd : dest ≠ "") :
    (normalizeParish dest ≠ normalizeParish store.parish →
      (applyAutoDistanceToUI store prevNP totalMiles dest).isNewParish = true ∧
      (applyAutoDistanceToUI store prevNP totalMiles dest).deliveryMiles =
        max 1 (toFixed1 (totalMiles * (3 / 10)))) ∧
    (normalizeParish dest = normalizeParish store.parish →
      (applyAutoDistanceToUI store prevNP totalMiles dest).isNewParish = false ∧
      (applyAutoDistanceToUI store prevNP totalMiles dest).deliveryMiles =
        toFixed1 totalMiles) := by
  constructor
  · intro hcross
    simp only [applyAutoDistanceToUI]
    rw [if_pos hd, if_pos hcross]
    exact ⟨rfl, rfl⟩
  · intro hsame
    simp only [applyAutoDistanceToUI]
    rw [if_pos hd, if_neg (not_not_intro hsame)]
    exact ⟨rfl, rfl⟩

/-- C7 witness: a 10-mile estimated trip ending in Portland (store in Saint
Andrew) flags a new parish and sets 3 delivery miles (30% of 10). -/
theorem C7_auto_distance_witness :
    (applyAutoDistanceToUI exStore false 10 "Portland").isNewParish = true ∧
    (applyAutoDistanceToUI exStore false 10 "Portland").deliveryMiles = 3 := by
  obtain ⟨hcross, -⟩ := C7_auto_distance exStore false 10 "Portland" (by decide)
  obtain ⟨h1, h2⟩ := hcross (by decide)
  refine ⟨h1, ?_⟩
  rw [h2]
  have hfx : toFixed1 (10 * (3 / 10)) = 3 := by
    rw [toFixed1]
    norm_num [Int.floor_eq_iff]
  rw [hfx, max_eq_right (by norm_num)]

/-- C8: `"St. James"` names the parish Saint James through the `St.`
abbreviation, yet `matchParishName` returns `none` for it: the prefix
replacement turns `St. James` into `Saint  James` (double space), which
matches no entry of the 14-parish list. -/
theorem C8_st_dot_space_unmatched :
    "Saint James" ∈ JAMAICA_PARISHES ∧
    normalizeParish "St. James" = "saint  james" ∧
    matchParishName "St. James" = none := by
  refine ⟨by decide, by decide, by decide⟩

/-- C9: when every guard of `handlePlaceOrder` passes, exactly one new order
is appended at the end of the order list, every previously stored order is
unchanged, and the whole updated list is written to localStorage as one
blob. -/
theorem C9_place_order_appends (st : PlaceOrderState) (oid tick now : String)
    (r : CalcResult) (hr : st.result = some r)
    (u : SalesRep) (hu : st.loggedInUser = some u)
    (hn : jsTrim st.customerName ≠ "")
    (hph : jsTrim st.customerPhone ≠ "")
    (hm : ¬(st.deliveryMethod = "delivery" ∧ st.isNewParish = false ∧
        milesInvalid st.deliveryMiles = true)) :
    ∃ o : Order,
      (handlePlaceOrder st oid tick now).orders = st.orders ++ [o] ∧
      (handlePlaceOrder st oid tick now).localStorageOrders =
        (handlePlaceOrder st oid tick now).orders ∧
      ∀ i, i < st.orders.length →
        (handlePlaceOrder st oid tick now).orders[i]? = st.orders[i]? := by
  simp only [handlePlaceOrder, hr, hu]
  rw [if_neg (by push_neg; exact ⟨hn, hph⟩), if_neg hm]
  exact ⟨_, rfl, rfl, fun i hi => List.getElem?_append_left hi⟩

/-- C9 witness: placing an order from a ready state with one stored order
appends one order and persists the whole two-element list. -/
theorem C9_place_order_appends_witness :
    ∃ o : Order,
      (handlePlaceOrder exPlaceState "ORD-2" "TRU-BBBB-2222" "2026-01-02T00:00:00.000Z").orders =
        exPlaceState.orders ++ [o] ∧
      (handlePlaceOrder exPlaceState "ORD-2" "TRU-BBBB-2222" "2026-01-02T00:00:00.000Z").localStorageOrders =
        (handlePlaceOrder exPlaceState "ORD-2" "TRU-BBBB-2222" "2026-01-02T00:00:00.000Z").orders ∧
      ∀ i, i < exPlaceState.orders.length →
        (handlePlaceOrder exPlaceState "ORD-2" "TRU-BBBB-2222" "2026-01-02T00:00:00.000Z").orders[i]? =
          exPlaceState.orders[i]? :=
  C9_place_order_appends exPlaceState "ORD-2" "TRU-BBBB-2222" "2026-01-02T00:00:00.000Z"
    exResult rfl exRep rfl (by decide) (by decide) (by decide)

end TilesRUs

